import Mathlib

/-!
Verification development for the phue library (Philips Hue Python client).

The definitions below are a shallow embedding of the code in
src/phue/bridge.py, src/phue/light.py, src/phue/scene.py and the legacy
module src/phue.py.  Python machinery is modelled explicitly:

* JSON-ish values are `PValue`; Python dicts become association lists with
  the usual dict update/delete semantics (`setKey`, `delKey`);
* the HTTP transport is an environment parameter (a response per request);
* raised exceptions become explicit constructors of result types;
* mutable object state is threaded as explicit state records.
-/

/-- A JSON-like value, the payloads the library sends and receives. -/
inductive PValue
  | pbool (b : Bool)
  | pnum (n : Int)
  | pstr (s : String)
  | pnull
deriving DecidableEq

/-- Association-list dictionary used for JSON objects. -/
abbrev PDict := List (String × PValue)

/-- Membership test for a dict key, as Python `k in d`. -/
def hasKey (d : PDict) (k : String) : Bool := d.any (fun p => p.1 == k)

/-- Python `del d[k]`: removes the key (dict keys are unique, so removing
every pair with that key is the same operation). -/
def delKey (d : PDict) (k : String) : PDict := d.filter (fun p => p.1 != k)

/-- Python `d[k] = v`: replace in place if the key exists, else append. -/
def setKey (d : PDict) (k : String) (v : PValue) : PDict :=
  if hasKey d k then d.map (fun p => if p.1 == k then (k, v) else p)
  else d ++ [(k, v)]

/-- Python `d[k]` as an option (`none` models a raised KeyError). -/
def lookupKey (d : PDict) (k : String) : Option PValue :=
  (d.find? (fun p => p.1 == k)).map Prod.snd

/-- Device-level outcome of one HTTP command request: the first entry of the
JSON list the bridge answers, which carries either a success or an error
object (`bridge.py` inspects `result[-1][0]` for the key `error`). -/
inductive ApiResult
  | success
  | apiError (description : String)
deriving DecidableEq

/-- The `parameter` argument of the set-style bridge methods: either a whole
attribute dict or a single attribute name to be paired with `value`. -/
inductive Param
  | pdict (d : PDict)
  | single (name : String) (value : PValue)
deriving DecidableEq

/-! ## Color temperature (src/phue/light.py, colortemp and colortemp_k)

Python computes `int(round(1e6 / v))` in floats.  For the integer inputs
involved the rational value is far enough from every half-integer except the
exactly representable halves, so float rounding agrees with exact
round-half-to-even on rationals, which `roundHalfEvenDiv` implements for a
nonnegative fraction a / b. -/

/-- Round-half-to-even of a / b for natural numbers, b > 0: the value of
Python `int(round(a / b))`. -/
def roundHalfEvenDiv (a b : Nat) : Nat :=
  let q := a / b
  let r := a % b
  if 2 * r < b then q
  else if b < 2 * r then q + 1
  else if q % 2 = 0 then q else q + 1

/-- Getter `Light.colortemp_k`: Kelvin view of a mired reading, computed as
`int(round(1e6 / mireds))` (src/phue/light.py lines 185-189). -/
def colortemp_k_get (mireds : Nat) : Nat := roundHalfEvenDiv 1000000 mireds

/-- Setter `Light.colortemp` (src/phue/light.py lines 176-183): warns outside
[154, 500] and forwards the value unchanged as the `ct` command.  Returns the
warning list and the forwarded mired value. -/
def colortemp_set (value : Int) : List String × Int :=
  let w :=
    if value < 154 then ["154 mireds is coolest allowed color temp"]
    else if value > 500 then ["500 mireds is warmest allowed color temp"]
    else []
  (w, value)

/-- Setter `Light.colortemp_k` (src/phue/light.py lines 191-202): clamps the
Kelvin value to [2000, 6500] with a warning, converts to mireds via
`int(round(1e6 / value))`, and delegates to the `colortemp` setter.  Returns
all warnings and the mired value sent as the `ct` command. -/
def colortemp_k_set (value : Int) : List String × Int :=
  let clamped :=
    if value > 6500 then (["6500 K is max allowed color temp"], (6500 : Int))
    else if value < 2000 then (["2000 K is min allowed color temp"], (2000 : Int))
    else ([], value)
  let mireds : Int := Int.ofNat (roundHalfEvenDiv 1000000 clamped.2.toNat)
  let fwd := colortemp_set mireds
  (clamped.1 ++ fwd.1, fwd.2)

/-! ## Name-to-id lookups (src/phue/bridge.py lines 195-205, 224-234, 483-493)

The resource listings returned by `get_light()` / `get_sensor()` /
`get_group()` are JSON objects keyed by id strings whose values carry a
`name` field; they are modelled as association lists of (id, name) in the
dict iteration order.  All three lookups linear-scan for a case-sensitive
exact match and return the Python value `False` when no entry matches,
modelled as `none`; `some i` models returning the id key `i`. -/

/-- `Bridge.get_light_id_by_name`: first id whose name equals `name`, else
the sentinel `False` (modelled `none`). -/
def get_light_id_by_name (lights : List (String × String)) (name : String) :
    Option String :=
  (lights.find? (fun p => name == p.2)).map Prod.fst

/-- `Bridge.get_sensor_id_by_name`: same scan over the sensor listing. -/
def get_sensor_id_by_name (sensors : List (String × String)) (name : String) :
    Option String :=
  (sensors.find? (fun p => name == p.2)).map Prod.fst

/-- `Bridge.get_group_id_by_name`: same scan over the group listing. -/
def get_group_id_by_name (groups : List (String × String)) (name : String) :
    Option String :=
  (groups.find? (fun p => name == p.2)).map Prod.fst

/-! ## Python int() on strings, needed by Group.__init__ (src/phue.py 487-506)

`Group.__init__` first tries `int(group_id)`; only when that raises does it
fall back to the name scan.  `pyIntParse` models `int()` applied to an ASCII
string: optional surrounding whitespace, an optional single sign, then
digits optionally separated by single underscores. -/

/-- Remaining characters of a valid integer literal after its first digit:
digits, with single underscores that must be followed by a digit. -/
def pyDigitsTail : List Char → Bool
  | [] => true
  | ('_' :: c :: rest) => c.isDigit && pyDigitsTail rest
  | (['_']) => false
  | (c :: rest) => c.isDigit && pyDigitsTail rest

/-- Valid digit run for Python `int`: nonempty, starts with a digit, single
underscores only between digits. -/
def pyDigitsValid : List Char → Bool
  | [] => false
  | (c :: rest) => c.isDigit && pyDigitsTail rest

/-- Numeric value of a digit run, skipping underscores. -/
def pyDigitsVal (cs : List Char) : Nat :=
  cs.foldl (fun acc c => if c == '_' then acc else acc * 10 + (c.toNat - 48)) 0

/-- ASCII whitespace strip from both ends (Python str.strip for ASCII). -/
def pyStrip (cs : List Char) : List Char :=
  ((cs.dropWhile Char.isWhitespace).reverse.dropWhile Char.isWhitespace).reverse

/-- Python `int(s)` for an ASCII string, `none` modelling a raised
ValueError. -/
def pyIntParse (s : String) : Option Int :=
  let cs := pyStrip s.toList
  let signed : Int × List Char :=
    match cs with
    | ('+' :: rest) => (1, rest)
    | ('-' :: rest) => (-1, rest)
    | rest => (1, rest)
  if pyDigitsValid signed.2 then some (signed.1 * Int.ofNat (pyDigitsVal signed.2))
  else none

/-- The `group_id` argument of `Group.__init__`: an integer or a string. -/
inductive GroupArg
  | byId (n : Int)
  | byName (s : String)
deriving DecidableEq

/-- Outcome of `Group.__init__` (src/phue.py lines 487-506). -/
inductive GroupInitOutcome
  | ok (group_id : Int)
  | lookupError
  | valueError
deriving DecidableEq

/-- `Group.__init__`: `int(group_id)` if it parses; otherwise scan the group
listing for the name, raising LookupError when the for-loop completes with
no match; a matching id key that `int()` cannot parse raises ValueError. -/
def group_init (groups : List (String × String)) (arg : GroupArg) :
    GroupInitOutcome :=
  match arg with
  | .byId n => .ok n
  | .byName s =>
    match pyIntParse s with
    | some n => .ok n
    | none =>
      match groups.find? (fun p => p.2 == s) with
      | some p =>
        match pyIntParse p.1 with
        | some n => .ok n
        | none => .valueError
      | none => .lookupError

/-! ## Sensor state and config writes (src/phue/bridge.py lines 424-466) -/

/-- Outcome of `Bridge.set_sensor_content`: `invalidStructure` models the
early `return False`, `keyErr` a raised KeyError from `del` (no request
issued), `sent payload resp` the PUT that was issued with `payload` and the
device answer `resp`. -/
inductive SensorSetOutcome
  | invalidStructure
  | keyErr
  | sent (payload : PDict) (resp : ApiResult)
deriving DecidableEq

/-- `Bridge.set_sensor_content`: after validating the structure name it
builds the data dict (copying a dict parameter), then unconditionally runs
`del data["lastupdated"]` before issuing the PUT; a missing key raises. -/
def set_sensor_content (env : ApiResult) (parameter : Param)
    (structureName : String) : SensorSetOutcome :=
  if structureName != "state" && structureName != "config" then
    .invalidStructure
  else
    let data : PDict :=
      match parameter with
      | .pdict d => d
      | .single n v => [(n, v)]
    if hasKey data "lastupdated" then .sent (delKey data "lastupdated") env
    else .keyErr

/-- `Bridge.set_sensor_state`: delegates with structure "state". -/
def set_sensor_state (env : ApiResult) (parameter : Param) : SensorSetOutcome :=
  set_sensor_content env parameter "state"

/-- `Bridge.set_sensor_config`: delegates with structure "config". -/
def set_sensor_config (env : ApiResult) (parameter : Param) : SensorSetOutcome :=
  set_sensor_content env parameter "config"

/-! ## get_light (src/phue/bridge.py lines 280-299 and src/phue.py 877-896)

The light state object fetched for an id is modelled with its top-level
fields (other than "state") and the nested "state" object kept apart. -/

/-- Decoded response for one light: top-level fields and the nested state. -/
structure LightStateObj where
  top : PDict
  state : PDict
deriving DecidableEq

/-- Result of `get_light` with an id: the full object, a single value, or a
raised KeyError. -/
inductive GetLightResult
  | full (top : PDict) (state : PDict)
  | value (v : PValue)
  | keyErr
deriving DecidableEq

/-- `Bridge.get_light` of the packaged module (src/phue/bridge.py): only the
parameter "name" is read from the top level; every other parameter is read
from the nested state object, raising KeyError when absent. -/
def get_light (obj : LightStateObj) (parameter : Option String) :
    GetLightResult :=
  match parameter with
  | none => .full obj.top obj.state
  | some p =>
    if p == "name" then
      match lookupKey obj.top p with
      | some v => .value v
      | none => .keyErr
    else
      match lookupKey obj.state p with
      | some v => .value v
      | none => .keyErr

/-- `Bridge.get_light` of the legacy module (src/phue.py): the structural
fields name, type, uniqueid and swversion are read from the top level. -/
def get_light_legacy (obj : LightStateObj) (parameter : Option String) :
    GetLightResult :=
  match parameter with
  | none => .full obj.top obj.state
  | some p =>
    if p == "name" || p == "type" || p == "uniqueid" || p == "swversion" then
      match lookupKey obj.top p with
      | some v => .value v
      | none => .keyErr
    else
      match lookupKey obj.state p with
      | some v => .value v
      | none => .keyErr

/-! ## Scenes (src/phue/scene.py, src/phue/bridge.py lines 574-626) -/

/-- A group as `run_scene` observes it: its id, its name property, and the
member light ids obtained from `group.lights`. -/
structure GroupInfo where
  group_id : Int
  name : String
  lights : List Int
deriving DecidableEq

/-- Raw scene data as returned by the scenes listing, before
`Scene.__init__` sorts the light ids. -/
structure SceneData where
  sid : String
  name : String
  lights : List Int
deriving DecidableEq

/-- Insertion into an ascending list of integers. -/
def pyInsert (n : Int) : List Int → List Int
  | [] => [n]
  | (m :: rest) => if n ≤ m then n :: m :: rest else m :: pyInsert n rest

/-- Python `sorted` on a list of integers (ascending order). -/
def pySorted (l : List Int) : List Int := l.foldr pyInsert []

/-- `Scene.__init__` (src/phue/scene.py): stores the member light ids
sorted. -/
def mkScene (s : SceneData) : SceneData :=
  { s with lights := pySorted s.lights }

/-- The scenes whose name matches, each with sorted light ids: the list
`run_scene` builds from `self.scenes`. -/
def scene_candidates (scenes : List SceneData) (scene_name : String) :
    List SceneData :=
  (scenes.map mkScene).filter (fun x => x.name == scene_name)

/-- `Bridge.run_scene` (src/phue/bridge.py lines 587-626): resolves the
group and scene by name and returns the `(group_id, scene_id)` pair passed
to `activate_scene`, or `none` when it only warns and returns. -/
def run_scene (groups : List GroupInfo) (scenes : List SceneData)
    (group_name scene_name : String) : Option (Int × String) :=
  let gs := groups.filter (fun x => x.name == group_name)
  let ss := scene_candidates scenes scene_name
  match gs with
  | [group] =>
    match ss with
    | [] => none
    | [scene] => some (group.group_id, scene.sid)
    | _ =>
      let group_lights := pySorted group.lights
      (ss.find? (fun scene => group_lights == scene.lights)).map
        (fun scene => (group.group_id, scene.sid))
  | _ => none

/-! ## The Light proxy and the on/off brightness workaround
(src/phue/light.py lines 40-108) -/

/-- The mutable per-instance state of a `Light` proxy that the `on` setter
reads and writes. -/
structure LightProxy where
  cachedOn : Option Bool
  cachedBrightness : Option Int
  transitiontime : Option Int
  resetBriAfterOn : Option Bool
deriving DecidableEq

/-- One `bridge.set_light` invocation as recorded by `Light._set`: the
parameter, its value, and the transitiontime keyword that was attached. -/
structure SetCmd where
  parameter : String
  value : PValue
  transitiontime : Option Int
deriving DecidableEq

/-- Python truthiness of the cached tri-state values (None and False are
falsy). -/
def pyTruthy : Option Bool → Bool
  | some true => true
  | _ => false

/-- `Light._set` (src/phue/light.py lines 43-53) for a positional call with
one parameter and value: attaches the remembered transitiontime and flags
the brightness reset when switching off with a transitiontime in effect. -/
def light_set (st : LightProxy) (parameter : String) (value : PValue) :
    LightProxy × SetCmd :=
  match st.transitiontime with
  | none => (st, ⟨parameter, value, none⟩)
  | some t =>
    let st' :=
      if parameter == "on" && value == .pbool false then
        { st with resetBriAfterOn := some true }
      else st
    (st', ⟨parameter, value, some t⟩)

/-- The cached brightness as the value sent by `self.brightness = ...`
(a never-observed brightness is Python None). -/
def pvalOfBrightness : Option Int → PValue
  | some n => .pnum n
  | none => .pnull

/-- Setter of `Light.on` (src/phue/light.py lines 82-108).  Returns the new
proxy state and the `set_light` commands issued, in order. -/
def light_set_on (st : LightProxy) (value : Bool) : LightProxy × List SetCmd :=
  let st1 :=
    if pyTruthy st.cachedOn && value == false then
      { st with resetBriAfterOn := some st.transitiontime.isSome }
    else st
  let step1 := light_set st1 "on" (.pbool value)
  let st2 := step1.1
  let step2 : LightProxy × List SetCmd :=
    if st2.cachedOn == some false && value == true then
      if pyTruthy st2.resetBriAfterOn then
        let bset := light_set { st2 with cachedBrightness := st2.cachedBrightness }
          "bri" (pvalOfBrightness st2.cachedBrightness)
        ({ bset.1 with resetBriAfterOn := some false }, [bset.2])
      else (st2, [])
    else (st2, [])
  ({ step2.1 with cachedOn := some value }, step1.2 :: step2.2)

/-! ## set_light (src/phue/bridge.py lines 301-344)

The transport is an environment function giving the device-level outcome of
the i-th PUT issued by the call.  Requests are recorded with the address
string the code builds and the JSON body. -/

/-- One element of the `light_id` argument: an integer id or a name. -/
inductive LightRef
  | byId (n : Int)
  | byName (s : String)
deriving DecidableEq

/-- The `light_id` argument itself: a scalar or a list. -/
inductive LightInput
  | one (r : LightRef)
  | many (rs : List LightRef)
deriving DecidableEq

/-- A single quote character, for Python repr of strings. -/
def pyQuote : String := (Char.ofNat 39).toString

/-- Python `repr` of a list element (ints plain, strings quoted); covers the
plain ASCII names the library deals in. -/
def pyReprRef : LightRef → String
  | .byId n => toString n
  | .byName s => pyQuote ++ s ++ pyQuote

/-- Python `str` of a light ref on its own. -/
def pyStrRef : LightRef → String
  | .byId n => toString n
  | .byName s => s

/-- Python `str(light_id)` for the original argument: scalars print plainly,
a list prints its elements by repr inside brackets. -/
def pyStrInput : LightInput → String
  | .one r => pyStrRef r
  | .many rs => "[" ++ String.intercalate ", " (rs.map pyReprRef) ++ "]"

/-- A PUT request issued by `set_light`: address and JSON body. -/
structure LightPut where
  address : String
  body : PDict
deriving DecidableEq

/-- What one `set_light` call produces: the returned per-target result
list, the PUT requests issued in order, and the error log lines. -/
structure SetLightOutput where
  result : List ApiResult
  requests : List LightPut
  logs : List String
deriving DecidableEq

/-- The `str(converted_light)` appearing in the state address: an int id
prints plainly, a name is first resolved by `get_light_id_by_name`, whose
`False` sentinel prints as "False". -/
def convertedStr (lights : List (String × String)) : LightRef → String
  | .byId n => toString n
  | .byName s =>
    match get_light_id_by_name lights s with
    | some i => i
    | none => "False"

/-- The one PUT built for a loop target: the "name" parameter addresses
`/lights/str(light_id)` with the original argument, every other parameter
addresses `/lights/str(converted_light)/state`. -/
def set_light_request (lights : List (String × String)) (username : String)
    (isName : Bool) (origStr : String) (data : PDict) (r : LightRef) :
    LightPut :=
  if isName then
    ⟨"/api/" ++ username ++ "/lights/" ++ origStr, data⟩
  else
    ⟨"/api/" ++ username ++ "/lights/" ++ convertedStr lights r ++ "/state", data⟩

/-- The warning logged when a per-target response embeds an error. -/
def set_light_log (r : LightRef) : ApiResult → List String
  | .success => []
  | .apiError d => ["ERROR: " ++ d ++ " for light " ++ pyStrRef r]

/-- The per-target loop of `set_light`, with `i` the index of the next
request in the overall call. -/
def set_light_loop (env : Nat → ApiResult) (lights : List (String × String))
    (username : String) (isName : Bool) (origStr : String) (data : PDict) :
    Nat → List LightRef → SetLightOutput
  | _, [] => ⟨[], [], []⟩
  | i, r :: rest =>
    let req := set_light_request lights username isName origStr data r
    let resp := env i
    let tail := set_light_loop env lights username isName origStr data (i + 1) rest
    ⟨resp :: tail.result, req :: tail.requests, set_light_log r resp ++ tail.logs⟩

/-- The data dict `set_light` sends: the parameter dict or the singleton
pair, with the rounded transitiontime assigned when given. -/
def setData (parameter : Param) (transitiontime : Option Int) : PDict :=
  let data0 : PDict :=
    match parameter with
    | .pdict d => d
    | .single n v => [(n, v)]
  match transitiontime with
  | some t => setKey data0 "transitiontime" (.pnum t)
  | none => data0

/-- Whether the `parameter == "name"` comparison in the loop is true: only
when the parameter argument is the string "name" itself. -/
def isNameParam : Param → Bool
  | .single n _ => n == "name"
  | .pdict _ => false

/-- `Bridge.set_light`: builds the data dict, attaches transitiontime,
normalizes a scalar target to a one-element list, and runs the loop. -/
def set_light (env : Nat → ApiResult) (lights : List (String × String))
    (username : String) (light_id : LightInput) (parameter : Param)
    (transitiontime : Option Int) : SetLightOutput :=
  let light_id_array :=
    match light_id with
    | .one r => [r]
    | .many rs => rs
  set_light_loop env lights username (isNameParam parameter)
    (pyStrInput light_id) (setData parameter transitiontime) 0 light_id_array

/-! ## Registration and connect (src/phue/bridge.py lines 38-69, 143-193)

The credential file is modelled as an explicit state: the three load
failures the spec names (missing, unreadable, malformed JSON; a parsed file
of the wrong shape also folds into `malformed`) plus readable content, a
mapping address to the success object that registration stored.  The
transport for registration is an environment carrying the response list the
bridge answers to the POST; real bridges answer a single-key line per entry,
which `RegLine` captures.  Exceptions abort construction and are returned as
values; the trace records every registration POST and every credential-file
write in order. -/

/-- The success object of a registration response line, as persisted. -/
structure SuccessEntry where
  username : String
deriving DecidableEq

/-- One line of the registration response list. -/
inductive RegLine
  | success (s : SuccessEntry)
  | regError (errorType : Int)
  | other
deriving DecidableEq

/-- Parsed credential-file content: address to success object. -/
abbrev Config := List (String × SuccessEntry)

/-- State of the credential file on disk. -/
inductive FileState
  | absent
  | unreadable
  | malformed
  | content (cfg : Config)
deriving DecidableEq

/-- The exceptions `register_app` raises. -/
inductive PhueErr
  | registrationExc (errorType : Int)
  | genericExc (errorType : Int)
deriving DecidableEq

/-- The Bridge attributes `connect` and `register_app` read and write,
together with the file. -/
structure BridgeState where
  ip : Option String
  username : Option String
  file : FileState
deriving DecidableEq

/-- Observable side effects of a construction: number of registration POSTs
and the credential-file writes, each a single-address object. -/
structure Trace where
  regRequests : Nat
  fileWrites : List (String × SuccessEntry)
deriving DecidableEq

/-- The environment: what the bridge answers a registration POST. -/
structure Env where
  regResponse : List RegLine
deriving DecidableEq

/-- Outcome of connect: the final state or a raised exception, plus the
trace; `none` is exhausted fuel (never reached from `construct`). -/
abbrev ConnectResult := Option ((Except PhueErr BridgeState) × Trace)

/-- The JSON key under which `json.dumps` stores the current ip
(`json.dumps` renders a None key as "null"). -/
def ipToKey : Option String → String
  | some a => a
  | none => "null"

/-- Config lookup by address key. -/
def cfgLookup (cfg : Config) (k : String) : Option SuccessEntry :=
  (cfg.find? (fun p => p.1 == k)).map Prod.snd

/-- The body of the `try` block in `connect` (src/phue/bridge.py lines
176-189) on readable content: resolve the missing ip from the first key,
then the missing username from the record at the resolved ip; `none` models
the caught exception.  The two Python assignments that can fail do so before
mutating the attribute being resolved, so the block is atomic here. -/
def tryLoad (ip? usr? : Option String) (cfg : Config) :
    Option (String × String) := do
  let ipR ← match ip? with
    | some a => some a
    | none => cfg.head?.map Prod.fst
  let usrR ← match usr? with
    | some u => some u
    | none => (cfgLookup cfg ipR).map SuccessEntry.username
  pure (ipR, usrR)

/-- The response loop of `register_app` (src/phue/bridge.py lines 148-164),
parametric in the connect call it re-enters after a successful write.  A
success line overwrites the credential file with the single-address object
mapping the current ip to the issued entry and re-runs connect; an error
line of type 101 or 7 raises; other lines fall through. -/
def regLines (connectFn : BridgeState → Trace → ConnectResult) :
    List RegLine → BridgeState → Trace → ConnectResult
  | [], st, tr => some (.ok st, tr)
  | .success s :: rest, st, tr =>
    let key := ipToKey st.ip
    let st' := { st with file := .content [(key, s)] }
    let tr' := { tr with fileWrites := tr.fileWrites ++ [(key, s)] }
    match connectFn st' tr' with
    | none => none
    | some (.error e, tr2) => some (.error e, tr2)
    | some (.ok st2, tr2) => regLines connectFn rest st2 tr2
  | .regError t :: rest, st, tr =>
    if t = 101 then some (.error (.registrationExc t), tr)
    else if t = 7 then some (.error (.genericExc t), tr)
    else regLines connectFn rest st tr
  | .other :: rest, st, tr => regLines connectFn rest st tr

/-- `Bridge.register_app`: one POST to /api, then the response loop. -/
def register_app (connectFn : BridgeState → Trace → ConnectResult)
    (env : Env) (st : BridgeState) (tr : Trace) : ConnectResult :=
  regLines connectFn env.regResponse st
    { tr with regRequests := tr.regRequests + 1 }

/-- `Bridge.connect` with explicit recursion fuel: the fast path when both
ip and username are supplied, otherwise the file load with any failure
falling back to `register_app`. -/
def connectFuel : Nat → Env → BridgeState → Trace → ConnectResult
  | 0, _, _, _ => none
  | fuel + 1, env, st, tr =>
    if st.ip.isSome && st.username.isSome then some (.ok st, tr)
    else
      match st.file with
      | .content cfg =>
        match tryLoad st.ip st.username cfg with
        | some r =>
          some (.ok { st with ip := some r.1, username := some r.2 }, tr)
        | none => register_app (connectFuel fuel env) env st tr
      | _ => register_app (connectFuel fuel env) env st tr

/-- `Bridge.__init__` for given constructor arguments and file state: runs
`connect` with fuel 3, which is never exhausted. -/
def construct (env : Env) (ip? usr? : Option String) (file : FileState) :
    ConnectResult :=
  connectFuel 3 env ⟨ip?, usr?, file⟩ ⟨0, []⟩

/-- Load failure of the credential file for the given constructor
arguments: any unreadable file state, or readable content on which the try
block raises. -/
def loadFails (ip? usr? : Option String) (f : FileState) : Prop :=
  match f with
  | .content cfg => tryLoad ip? usr? cfg = none
  | _ => True

instance (ip? usr? : Option String) (f : FileState) :
    Decidable (loadFails ip? usr? f) := by
  unfold loadFails
  match f with
  | .content cfg => exact inferInstance
  | .absent => exact inferInstance
  | .unreadable => exact inferInstance
  | .malformed => exact inferInstance

/-- The three credential-file load failures the spec names: missing file,
unreadable file, malformed JSON. -/
def fileLoadErr (f : FileState) : Prop :=
  f = .absent ∨ f = .unreadable ∨ f = .malformed

instance (f : FileState) : Decidable (fileLoadErr f) := by
  unfold fileLoadErr; exact inferInstance

/-- What the caller of a Bridge construction observes: the raised exception
or the resolved ip and username attributes, plus the side-effect trace.  The
file state itself is not part of the constructed object. -/
def observe (r : ConnectResult) :
    Option ((Except PhueErr (Option String × Option String)) × Trace) :=
  match r with
  | none => none
  | some (.ok st, tr) => some (.ok (st.ip, st.username), tr)
  | some (.error e, tr) => some (.error e, tr)

/-! # Theorems -/

/-- Helper: deleting a key removes it from the dict. -/
theorem hasKey_delKey (d : PDict) (k : String) :
    hasKey (delKey d k) k = false := by
  induction d with
  | nil => rfl
  | cons p rest ih =>
    by_cases h : p.1 = k
    · simp only [delKey, hasKey] at ih ⊢
      simp [h, ih]
    · simp only [delKey, hasKey] at ih ⊢
      simp [h, ih]

/-- C7 counterexample: converting 2700 K to mireds (370) and back yields
2703, which is not within 1 of 2700, so the round-trip tolerance the claim
states fails at the very input it names. -/
theorem C7_counterexample :
    colortemp_k_get (colortemp_k_set 2700).2.toNat = 2703 ∧
    ¬((colortemp_k_get (colortemp_k_set 2700).2.toNat : Int) - 2700 ≤ 1 ∧
      (2700 : Int) - (colortemp_k_get (colortemp_k_set 2700).2.toNat : Int) ≤ 1) := by
  constructor
  · decide
  · decide

/-- C7 (amended): assigning colortemp_k above 6500 K or below 2000 K clamps
to the bound before conversion, with the warning as the only side effect
(the setter is a total function, no exception path); the Kelvin view is
round(1e6 / mireds) and the inverse conversion is round(1e6 / kelvin); and
converting 2700 K to mireds and back yields 2703, within 3 of 2700. -/
theorem C7_colortemp_clamp (v : Int) (m : Nat) :
    (6500 < v → colortemp_k_set v =
      (["6500 K is max allowed color temp"], (colortemp_k_set 6500).2)) ∧
    (v < 2000 → colortemp_k_set v =
      (["2000 K is min allowed color temp"], (colortemp_k_set 2000).2)) ∧
    (2000 ≤ v → v ≤ 6500 →
      (colortemp_k_set v).2 = Int.ofNat (roundHalfEvenDiv 1000000 v.toNat)) ∧
    colortemp_k_get m = roundHalfEvenDiv 1000000 m ∧
    colortemp_k_get (colortemp_k_set 2700).2.toNat = 2703 := by
  refine ⟨?_, ?_, ?_, rfl, by decide⟩
  · intro h
    have hv : ¬ v < 2000 := by omega
    simp only [colortemp_k_set, colortemp_set, if_pos h]
    norm_num
    decide
  · intro h
    have hv : ¬ 6500 < v := by omega
    simp only [colortemp_k_set, colortemp_set, if_neg hv, if_pos h]
    norm_num
    decide
  · intro h1 h2
    have hv1 : ¬ 6500 < v := by omega
    have hv2 : ¬ v < 2000 := by omega
    simp only [colortemp_k_set, colortemp_set, if_neg hv1, if_neg hv2]

/-- C7 witness: the theorem applied at 7000 K and 370 mireds. -/
theorem C7_colortemp_clamp_witness :
    colortemp_k_set 7000 =
      (["6500 K is max allowed color temp"], (colortemp_k_set 6500).2) :=
  (C7_colortemp_clamp 7000 370).1 (by decide)

/-- C5 counterexample: on a response carrying `type` as a top-level field
(as bridge responses do), the packaged `Bridge.get_light` does not return
the top-level field for the structural attribute `type`; it raises KeyError
because it looks the attribute up in the nested state object. -/
theorem C5_counterexample :
    lookupKey
      ({ top := [("name", .pstr "Living Room Bulb"),
                 ("type", .pstr "Extended color light")],
         state := [("on", .pbool true), ("bri", .pnum 254)] } : LightStateObj).top
      "type" = some (.pstr "Extended color light") ∧
    get_light
      { top := [("name", .pstr "Living Room Bulb"),
                ("type", .pstr "Extended color light")],
        state := [("on", .pbool true), ("bri", .pnum 254)] }
      (some "type") = .keyErr := by
  constructor
  · decide
  · decide

/-- C5 (amended): `get_light id` with no parameter returns the full decoded
state object; in the packaged module only the attribute name is read from
the top level while every other attribute, `type` and `uniqueid` included,
is read from the nested state sub-object; in the legacy module the
structural set read from the top level is name, type, uniqueid and
swversion; in both, an attribute absent from where it is looked up raises
KeyError rather than returning None. -/
theorem C5_get_light_attributes (obj : LightStateObj) (p : String)
    (v : PValue) :
    (get_light obj none = .full obj.top obj.state) ∧
    (lookupKey obj.top "name" = some v →
      get_light obj (some "name") = .value v) ∧
    (p ≠ "name" → lookupKey obj.state p = some v →
      get_light obj (some p) = .value v) ∧
    (p ≠ "name" → lookupKey obj.state p = none →
      get_light obj (some p) = .keyErr) ∧
    (get_light_legacy obj none = .full obj.top obj.state) ∧
    ((p = "name" ∨ p = "type" ∨ p = "uniqueid" ∨ p = "swversion") →
      lookupKey obj.top p = some v →
      get_light_legacy obj (some p) = .value v) ∧
    (¬(p = "name" ∨ p = "type" ∨ p = "uniqueid" ∨ p = "swversion") →
      lookupKey obj.state p = some v →
      get_light_legacy obj (some p) = .value v) ∧
    (¬(p = "name" ∨ p = "type" ∨ p = "uniqueid" ∨ p = "swversion") →
      lookupKey obj.state p = none →
      get_light_legacy obj (some p) = .keyErr) := by
  refine ⟨rfl, ?_, ?_, ?_, rfl, ?_, ?_, ?_⟩
  · intro h
    simp [get_light, h]
  · intro hp h
    simp [get_light, hp, h]
  · intro hp h
    simp [get_light, hp, h]
  · rintro (h | h | h | h) hv <;> subst h <;> simp [get_light_legacy, hv]
  · intro hp h
    push_neg at hp
    obtain ⟨h1, h2, h3, h4⟩ := hp
    simp [get_light_legacy, h1, h2, h3, h4, h]
  · intro hp h
    push_neg at hp
    obtain ⟨h1, h2, h3, h4⟩ := hp
    simp [get_light_legacy, h1, h2, h3, h4, h]

/-- C5 witness: the theorem applied to the fixture light object, for the
nested brightness attribute and the legacy top-level type attribute. -/
theorem C5_get_light_attributes_witness :
    get_light
      { top := [("name", .pstr "Living Room Bulb"),
                ("type", .pstr "Extended color light")],
        state := [("on", .pbool true), ("bri", .pnum 254)] }
      (some "bri") = .value (.pnum 254) ∧
    get_light_legacy
      { top := [("name", .pstr "Living Room Bulb"),
                ("type", .pstr "Extended color light")],
        state := [("on", .pbool true), ("bri", .pnum 254)] }
      (some "type") = .value (.pstr "Extended color light") :=
  ⟨(C5_get_light_attributes _ "bri" (.pnum 254)).2.2.1
     (by decide) (by decide),
   (C5_get_light_attributes _ "type" (.pstr "Extended color light")).2.2.2.2.2.1
     (by tauto) (by decide)⟩

/-- C10 counterexample: the one single-parameter call that does not raise is
the parameter "lastupdated" itself; the key is present in the data, the
delete succeeds, and a PUT with an empty payload is issued. -/
theorem C10_counterexample :
    set_sensor_state .success (.single "lastupdated" .pnull) =
      .sent [] .success ∧
    set_sensor_state .success (.single "lastupdated" .pnull) ≠ .keyErr := by
  constructor
  · decide
  · decide

/-- C10 (amended): set_sensor_state and set_sensor_config delegate to
set_sensor_content, which unconditionally deletes "lastupdated" from the
outgoing data; when the data does not contain that key — in particular
every call passing a single parameter name other than "lastupdated" — this
raises KeyError before any HTTP request is issued, while a present key is
always stripped from the payload sent to the bridge. -/
theorem C10_sensor_lastupdated (env : ApiResult) (d : PDict) (n : String)
    (v : PValue) :
    (hasKey d "lastupdated" = false →
      set_sensor_state env (.pdict d) = .keyErr ∧
      set_sensor_config env (.pdict d) = .keyErr) ∧
    (n ≠ "lastupdated" →
      set_sensor_state env (.single n v) = .keyErr ∧
      set_sensor_config env (.single n v) = .keyErr) ∧
    (hasKey d "lastupdated" = true →
      set_sensor_state env (.pdict d) = .sent (delKey d "lastupdated") env ∧
      set_sensor_config env (.pdict d) = .sent (delKey d "lastupdated") env ∧
      hasKey (delKey d "lastupdated") "lastupdated" = false) := by
  refine ⟨?_, ?_, ?_⟩
  · intro h
    constructor
    · simp [set_sensor_state, set_sensor_content, h]
    · simp [set_sensor_config, set_sensor_content, h]
  · intro h
    have hk : hasKey [(n, v)] "lastupdated" = false := by
      simp [hasKey, h]
    constructor
    · simp [set_sensor_state, set_sensor_content, hk]
    · simp [set_sensor_config, set_sensor_content, hk]
  · intro h
    refine ⟨?_, ?_, hasKey_delKey d "lastupdated"⟩
    · simp [set_sensor_state, set_sensor_content, h]
    · simp [set_sensor_config, set_sensor_content, h]

/-- C10 witness: the theorem applied to a single "on" parameter and to a
dict that carries "lastupdated". -/
theorem C10_sensor_lastupdated_witness :
    set_sensor_state .success (.single "on" (.pbool true)) = .keyErr ∧
    set_sensor_state .success
      (.pdict [("on", .pbool true), ("lastupdated", .pstr "2012-10-29")]) =
      .sent [("on", .pbool true)] .success := by
  constructor
  · exact (C10_sensor_lastupdated .success [] "on" (.pbool true)).2.1
      (by decide) |>.1
  · exact ((C10_sensor_lastupdated .success
      [("on", .pbool true), ("lastupdated", .pstr "2012-10-29")] "on"
      (.pbool true)).2.2 (by decide)).1

/-- C8 counterexample: the name "42" matches no group in the listing, yet
constructing a Group from it does not raise a lookup error — Python int()
parses it first and the group id 42 is used directly. -/
theorem C8_counterexample :
    get_group_id_by_name [("1", "Kitchen")] "42" = none ∧
    group_init [("1", "Kitchen")] (.byName "42") = .ok 42 ∧
    group_init [("1", "Kitchen")] (.byName "42") ≠ .lookupError := by
  refine ⟨by decide, by decide, by decide⟩

/-- C8 (amended): for every name with no case-sensitive exact match the
three id-by-name lookups return the sentinel False rather than raising;
constructing a Group from a non-matching name raises a lookup error
provided the name does not itself parse as a Python integer — a name that
int() accepts is used directly as the group id with no lookup at all. -/
theorem C8_lookup_asymmetry (name : String)
    (lights sensors groups : List (String × String)) (n : Int) :
    ((∀ p ∈ lights, p.2 ≠ name) →
      get_light_id_by_name lights name = none) ∧
    ((∀ p ∈ sensors, p.2 ≠ name) →
      get_sensor_id_by_name sensors name = none) ∧
    ((∀ p ∈ groups, p.2 ≠ name) →
      get_group_id_by_name groups name = none) ∧
    (pyIntParse name = none → (∀ p ∈ groups, p.2 ≠ name) →
      group_init groups (.byName name) = .lookupError) ∧
    (pyIntParse name = some n →
      group_init groups (.byName name) = .ok n) := by
  have hfind : ∀ (l : List (String × String)), (∀ p ∈ l, p.2 ≠ name) →
      l.find? (fun p => name == p.2) = none := by
    intro l hl
    rw [List.find?_eq_none]
    intro p hp
    simp [Ne.symm (hl p hp)]
  have hfind2 : ∀ (l : List (String × String)), (∀ p ∈ l, p.2 ≠ name) →
      l.find? (fun p => p.2 == name) = none := by
    intro l hl
    rw [List.find?_eq_none]
    intro p hp
    simp [hl p hp]
  refine ⟨?_, ?_, ?_, ?_, ?_⟩
  · intro h
    simp [get_light_id_by_name, hfind lights h]
  · intro h
    simp [get_sensor_id_by_name, hfind sensors h]
  · intro h
    simp [get_group_id_by_name, hfind groups h]
  · intro hint h
    simp [group_init, hint, hfind2 groups h]
  · intro hint
    simp [group_init, hint]

/-- C8 witness: the theorem applied to the name "Desk" against a one-entry
listing, and to the int-parseable name "42". -/
theorem C8_lookup_asymmetry_witness :
    get_group_id_by_name [("1", "Kitchen")] "Desk" = none ∧
    group_init [("1", "Kitchen")] (.byName "Desk") = .lookupError ∧
    group_init [("1", "Kitchen")] (.byName "42") = .ok 42 :=
  ⟨(C8_lookup_asymmetry "Desk" [("1", "Kitchen")] [] [("1", "Kitchen")] 0).2.2.1
      (by decide),
   (C8_lookup_asymmetry "Desk" [] [] [("1", "Kitchen")] 0).2.2.2.1
      (by decide) (by decide),
   (C8_lookup_asymmetry "42" [] [] [("1", "Kitchen")] 42).2.2.2.2
      (by decide)⟩

/-- C6 counterexample: on a proxy with transitiontime 5 and cached
brightness 100 that was switched off, switching on issues the on=True PUT
first and the brightness-restore PUT second — not the order the claim
states. -/
theorem C6_counterexample :
    (light_set_on
        (light_set_on ⟨some true, some 100, some 5, none⟩ false).1 true).2 =
      [⟨"on", .pbool true, some 5⟩, ⟨"bri", .pnum 100, some 5⟩] ∧
    ([⟨"on", .pbool true, some 5⟩, ⟨"bri", .pnum 100, some 5⟩] :
        List SetCmd) ≠
      [⟨"bri", .pnum 100, some 5⟩, ⟨"on", .pbool true, some 5⟩] := by
  constructor
  · decide
  · decide

/-- C6 (amended): on a proxy with a non-null transitiontime and a cached
brightness, an assignment on=False records the reset-pending flag and
issues one request; the next assignment on=True issues two requests — the
on=True PUT followed by a brightness-restore PUT carrying the brightness
value last observed before the off transition — and clears the flag.  The
workaround state is per proxy instance: a proxy whose own state does not
record a pending reset issues exactly one request on an on=True
assignment. -/
theorem C6_on_off_workaround (st : LightProxy) (t b : Int)
    (htt : st.transitiontime = some t) (hb : st.cachedBrightness = some b) :
    (light_set_on st false).1.resetBriAfterOn = some true ∧
    (light_set_on st false).2 = [⟨"on", .pbool false, some t⟩] ∧
    (light_set_on (light_set_on st false).1 true).2 =
      [⟨"on", .pbool true, some t⟩, ⟨"bri", .pnum b, some t⟩] ∧
    (light_set_on (light_set_on st false).1 true).1.resetBriAfterOn =
      some false ∧
    (∀ st2 : LightProxy,
      ¬(st2.cachedOn = some false ∧ st2.resetBriAfterOn = some true) →
      (light_set_on st2 true).2.length = 1) := by
  have hoff : light_set_on st false =
      ({ st with resetBriAfterOn := some true, cachedOn := some false },
       [⟨"on", .pbool false, some t⟩]) := by
    by_cases hcache : pyTruthy st.cachedOn
    · simp [light_set_on, light_set, hcache, htt]
    · simp [light_set_on, light_set, hcache, htt]
  refine ⟨by rw [hoff], by rw [hoff], ?_, ?_, ?_⟩
  · rw [hoff]
    simp [light_set_on, light_set, pyTruthy, pvalOfBrightness, htt, hb]
  · rw [hoff]
    simp [light_set_on, light_set, pyTruthy, pvalOfBrightness, htt, hb]
  · intro st2 h2
    obtain ⟨o, cb, tt2, rf⟩ := st2
    rcases o with _ | ob
    · rcases tt2 with _ | t2 <;> simp [light_set_on, light_set, pyTruthy]
    · rcases ob
      · rcases rf with _ | fl
        · rcases tt2 with _ | t2 <;> simp [light_set_on, light_set, pyTruthy]
        · rcases fl
          · rcases tt2 with _ | t2 <;>
              simp [light_set_on, light_set, pyTruthy]
          · exact absurd ⟨rfl, rfl⟩ h2
      · rcases tt2 with _ | t2 <;> simp [light_set_on, light_set, pyTruthy]

/-- C6 witness: the theorem applied to a proxy with transitiontime 5 and
cached brightness 100 that was observed on. -/
theorem C6_on_off_workaround_witness :
    (light_set_on ⟨some true, some 100, some 5, none⟩ false).1.resetBriAfterOn =
      some true ∧
    (light_set_on
        (light_set_on ⟨some true, some 100, some 5, none⟩ false).1 true).2 =
      [⟨"on", .pbool true, some 5⟩, ⟨"bri", .pnum 100, some 5⟩] :=
  ⟨(C6_on_off_workaround ⟨some true, some 100, some 5, none⟩ 5 100
      rfl rfl).1,
   (C6_on_off_workaround ⟨some true, some 100, some 5, none⟩ 5 100
      rfl rfl).2.2.1⟩

/-- Helper: find? skips a prefix on which the predicate is false. -/
theorem find_append_none {α : Type} (p : α → Bool) (l1 l2 : List α)
    (h : ∀ x ∈ l1, p x = false) : (l1 ++ l2).find? p = l2.find? p := by
  induction l1 with
  | nil => rfl
  | cons a rest ih =>
    have ha : ¬ p a = true := by simp [h a (by simp)]
    rw [List.cons_append, List.find?_cons_of_neg _ ha]
    exact ih (fun x hx => h x (by simp [hx]))

/-- C9: with exactly one group matching the group name, run_scene activates
the unique scene matching the scene name; with several matching scenes it
activates the first whose sorted member-light-id list equals the sorted
light-id list of the group; in every remaining case it activates nothing
and returns (log-only failure, the total function yields none). -/
theorem C9_run_scene_resolution (groups : List GroupInfo)
    (scenes : List SceneData) (gname sname : String) (g : GroupInfo)
    (hg : groups.filter (fun x => x.name == gname) = [g]) :
    (∀ s, scene_candidates scenes sname = [s] →
      run_scene groups scenes gname sname = some (g.group_id, s.sid)) ∧
    (∀ pre s post, 2 ≤ (scene_candidates scenes sname).length →
      scene_candidates scenes sname = pre ++ s :: post →
      (∀ s2 ∈ pre, pySorted g.lights ≠ s2.lights) →
      pySorted g.lights = s.lights →
      run_scene groups scenes gname sname = some (g.group_id, s.sid)) ∧
    (scene_candidates scenes sname = [] →
      run_scene groups scenes gname sname = none) ∧
    (2 ≤ (scene_candidates scenes sname).length →
      (∀ s2 ∈ scene_candidates scenes sname, pySorted g.lights ≠ s2.lights) →
      run_scene groups scenes gname sname = none) := by
  refine ⟨?_, ?_, ?_, ?_⟩
  · intro s hs
    simp only [run_scene, hg, hs]
  · intro pre s post hlen hsplit hpre hmatch
    rcases hcand : scene_candidates scenes sname with _ | ⟨a, _ | ⟨b, tl⟩⟩
    · rw [hcand] at hlen; simp at hlen
    · rw [hcand] at hlen; simp at hlen
    · simp only [run_scene, hg, hcand]
      rw [← hcand, hsplit]
      have hfind : ((pre ++ s :: post).find?
          (fun scene => pySorted g.lights == scene.lights)) = some s := by
        rw [find_append_none _ pre (s :: post)
            (fun x hx => by simp [hpre x hx])]
        exact List.find?_cons_of_pos _ (by simp [hmatch])
      rw [hfind]
      rfl
  · intro hs
    simp only [run_scene, hg, hs]
  · intro hlen hnone
    rcases hcand : scene_candidates scenes sname with _ | ⟨a, _ | ⟨b, tl⟩⟩
    · rw [hcand] at hlen; simp at hlen
    · rw [hcand] at hlen; simp at hlen
    · simp only [run_scene, hg, hcand]
      rw [← hcand]
      have hfind : ((scene_candidates scenes sname).find?
          (fun scene => pySorted g.lights == scene.lights)) = none := by
        rw [List.find?_eq_none]
        intro x hx
        simp [hnone x hx]
      rw [hfind]
      rfl

/-- C9 witness: two scenes named Relax; the second is activated because its
sorted light ids [1, 3] equal the sorted light ids of the group. -/
theorem C9_run_scene_resolution_witness :
    run_scene [⟨1, "Living", [3, 1]⟩]
      [⟨"s1", "Relax", [2]⟩, ⟨"s2", "Relax", [3, 1]⟩] "Living" "Relax" =
      some (1, "s2") :=
  (C9_run_scene_resolution [⟨1, "Living", [3, 1]⟩]
      [⟨"s1", "Relax", [2]⟩, ⟨"s2", "Relax", [3, 1]⟩] "Living" "Relax"
      ⟨1, "Living", [3, 1]⟩ (by decide)).2.1
    [⟨"s1", "Relax", [2]⟩] ⟨"s2", "Relax", [1, 3]⟩ []
    (by decide) (by decide) (by decide) (by decide)

/-- Helper: the requests of the set_light loop are one per target, in
order, each built by set_light_request from its own target. -/
theorem set_light_loop_requests (env : Nat → ApiResult)
    (lights : List (String × String)) (username : String) (isName : Bool)
    (origStr : String) (data : PDict) (rs : List LightRef) :
    ∀ i, (set_light_loop env lights username isName origStr data i rs).requests =
      rs.map (set_light_request lights username isName origStr data) := by
  induction rs with
  | nil => intro i; rfl
  | cons r rest ih =>
    intro i
    simp only [set_light_loop, List.map_cons, List.cons.injEq]
    exact ⟨trivial, ih (i + 1)⟩

/-- Helper: the results of the set_light loop are the transport responses
for the consecutive request indices, one per target. -/
theorem set_light_loop_result (env : Nat → ApiResult)
    (lights : List (String × String)) (username : String) (isName : Bool)
    (origStr : String) (data : PDict) (rs : List LightRef) :
    ∀ i, (set_light_loop env lights username isName origStr data i rs).result =
      (List.range rs.length).map (fun j => env (i + j)) := by
  induction rs with
  | nil => intro i; rfl
  | cons r rest ih =>
    intro i
    simp only [set_light_loop, List.length_cons, List.range_succ_eq_map,
      List.map_cons, List.map_map, Nat.add_zero, List.cons.injEq]
    refine ⟨trivial, ?_⟩
    rw [ih (i + 1)]
    refine List.map_congr_left (fun a _ => ?_)
    simp only [Function.comp_apply]
    congr 1
    omega

/-- Helper: the log lines of the set_light loop are exactly the error logs
of each target paired with its own response. -/
theorem set_light_loop_logs (env : Nat → ApiResult)
    (lights : List (String × String)) (username : String) (isName : Bool)
    (origStr : String) (data : PDict) (rs : List LightRef) :
    ∀ i, (set_light_loop env lights username isName origStr data i rs).logs =
      ((rs.zip
        (set_light_loop env lights username isName origStr data i rs).result).map
        (fun p => set_light_log p.1 p.2)).flatten := by
  induction rs with
  | nil => intro i; rfl
  | cons r rest ih =>
    intro i
    simp only [set_light_loop, List.zip_cons_cons, List.map_cons,
      List.flatten_cons]
    rw [ih (i + 1)]

/-- Helper: when the parameter is not "name" the loop ignores the printed
original argument entirely. -/
theorem set_light_loop_origStr (env : Nat → ApiResult)
    (lights : List (String × String)) (username : String)
    (o1 o2 : String) (data : PDict) (rs : List LightRef) :
    ∀ i, set_light_loop env lights username false o1 data i rs =
      set_light_loop env lights username false o2 data i rs := by
  induction rs with
  | nil => intro i; rfl
  | cons r rest ih =>
    intro i
    simp only [set_light_loop, set_light_request, if_neg Bool.false_ne_true]
    rw [ih (i + 1)]

/-- C4: a set_light call on a list of n targets issues exactly n PUT
requests, one per target in the caller-supplied order, all carrying the
same data; the returned list has exactly n entries, the response of each
target in order, so a device-level error entry for one target is embedded
in that slot and never prevents the remaining requests (the request list
does not depend on the responses at all); the error of each target is
logged from its own response; and a scalar id is normalized to a
single-element sequence — its call issues exactly the one request built
for it and agrees with the singleton-list call whenever the parameter is
not "name" (for "name" the address embeds str of the original argument). -/
theorem C4_set_light_per_target (env : Nat → ApiResult)
    (lights : List (String × String)) (username : String)
    (rs : List LightRef) (parameter : Param) (tt : Option Int)
    (r : LightRef) :
    (set_light env lights username (.many rs) parameter tt).requests =
      rs.map (set_light_request lights username (isNameParam parameter)
        (pyStrInput (.many rs)) (setData parameter tt)) ∧
    (set_light env lights username (.many rs) parameter tt).requests.length =
      rs.length ∧
    (set_light env lights username (.many rs) parameter tt).result =
      (List.range rs.length).map env ∧
    (set_light env lights username (.many rs) parameter tt).logs =
      ((rs.zip ((List.range rs.length).map env)).map
        (fun p => set_light_log p.1 p.2)).flatten ∧
    (set_light env lights username (.one r) parameter tt).requests =
      [set_light_request lights username (isNameParam parameter)
        (pyStrInput (.one r)) (setData parameter tt) r] ∧
    (isNameParam parameter = false →
      set_light env lights username (.one r) parameter tt =
        set_light env lights username (.many [r]) parameter tt) := by
  have hres : (set_light env lights username (.many rs) parameter tt).result =
      (List.range rs.length).map env := by
    show (set_light_loop env lights username (isNameParam parameter)
        (pyStrInput (.many rs)) (setData parameter tt) 0 rs).result = _
    rw [set_light_loop_result]
    exact List.map_congr_left (fun a _ => by rw [Nat.zero_add])
  refine ⟨?_, ?_, hres, ?_, ?_, ?_⟩
  · exact set_light_loop_requests env lights username _ _ _ rs 0
  · show (set_light_loop env lights username (isNameParam parameter)
        (pyStrInput (.many rs)) (setData parameter tt) 0 rs).requests.length = _
    rw [set_light_loop_requests]
    exact List.length_map _ _
  · show (set_light_loop env lights username (isNameParam parameter)
        (pyStrInput (.many rs)) (setData parameter tt) 0 rs).logs = _
    rw [set_light_loop_logs, set_light_loop_result]
    have hz : (List.range rs.length).map (fun j => env (0 + j)) =
        (List.range rs.length).map env :=
      List.map_congr_left (fun a _ => by rw [Nat.zero_add])
    rw [hz]
  · exact set_light_loop_requests env lights username _ _ _ [r] 0
  · intro hn
    show set_light_loop env lights username (isNameParam parameter)
        (pyStrInput (.one r)) (setData parameter tt) 0 [r] =
      set_light_loop env lights username (isNameParam parameter)
        (pyStrInput (.many [r])) (setData parameter tt) 0 [r]
    rw [hn]
    exact set_light_loop_origStr env lights username _ _ _ [r] 0

/-- C4 witness: the theorem applied to two targets with a transport that
fails on the first and succeeds on the second. -/
theorem C4_set_light_per_target_witness :
    (set_light (fun i => if i == 0 then .apiError "boom" else .success)
        [("1", "Kitchen")] "u" (.many [.byId 1, .byId 2])
        (.single "on" (.pbool true)) none).result =
      (List.range 2).map
        (fun i => if i == 0 then ApiResult.apiError "boom" else .success) ∧
    set_light (fun i => if i == 0 then .apiError "boom" else .success)
        [("1", "Kitchen")] "u" (.one (.byId 1))
        (.single "on" (.pbool true)) none =
      set_light (fun i => if i == 0 then .apiError "boom" else .success)
        [("1", "Kitchen")] "u" (.many [.byId 1])
        (.single "on" (.pbool true)) none :=
  ⟨(C4_set_light_per_target
      (fun i => if i == 0 then .apiError "boom" else .success)
      [("1", "Kitchen")] "u" [.byId 1, .byId 2]
      (.single "on" (.pbool true)) none (.byId 1)).2.2.1,
   (C4_set_light_per_target
      (fun i => if i == 0 then .apiError "boom" else .success)
      [("1", "Kitchen")] "u" [.byId 1, .byId 2]
      (.single "on" (.pbool true)) none (.byId 1)).2.2.2.2.2 (by decide)⟩

/-- Helper: the load block with a supplied ip and no username resolves the
username from the record at that ip. -/
theorem tryLoad_some_none (a : String) (cfg : Config) :
    tryLoad (some a) none cfg =
      (cfgLookup cfg a).map (fun e => (a, e.username)) := by
  rcases h : cfgLookup cfg a with _ | e <;> simp [tryLoad, h]

/-- Helper: looking up the address of a freshly written single record. -/
theorem cfgLookup_single (a : String) (s : SuccessEntry) :
    cfgLookup [(a, s)] a = some s := by
  simp [cfgLookup]

/-- C1: when the credential-file load fails and the registration request
returns a success entry, construction performs exactly one file write whose
content is the single-address object mapping the bridge address to the
issued credential, re-runs connect, which resolves the username from that
file, and succeeds; a subsequent construction with no arguments resolves
both the address and the credential from the written file, with no
registration request and no write. -/
theorem C1_register_roundtrip (a : String) (s : SuccessEntry) (f : FileState)
    (hf : loadFails (some a) none f) (env2 : Env) :
    construct ⟨[.success s]⟩ (some a) none f =
      some (.ok ⟨some a, some s.username, .content [(a, s)]⟩,
            ⟨1, [(a, s)]⟩) ∧
    construct env2 none none (.content [(a, s)]) =
      some (.ok ⟨some a, some s.username, .content [(a, s)]⟩, ⟨0, []⟩) := by
  constructor
  · rcases f with _ | _ | _ | cfg
    · simp [construct, connectFuel, register_app, regLines,
        tryLoad_some_none, cfgLookup_single, ipToKey]
    · simp [construct, connectFuel, register_app, regLines,
        tryLoad_some_none, cfgLookup_single, ipToKey]
    · simp [construct, connectFuel, register_app, regLines,
        tryLoad_some_none, cfgLookup_single, ipToKey]
    · have hf2 : tryLoad (some a) none cfg = none := hf
      rw [tryLoad_some_none] at hf2
      rw [Option.map_eq_none'] at hf2
      simp [construct, connectFuel, register_app, regLines,
        tryLoad_some_none, cfgLookup_single, ipToKey, hf2]
  · simp [construct, connectFuel, tryLoad, cfgLookup]

/-- C1 witness: the theorem applied to the test fixture address and token
with a missing credential file. -/
theorem C1_register_roundtrip_witness :
    construct ⟨[.success ⟨"fooo"⟩]⟩ (some "10.0.0.0") none .absent =
      some (.ok ⟨some "10.0.0.0", some "fooo",
            .content [("10.0.0.0", ⟨"fooo"⟩)]⟩,
          ⟨1, [("10.0.0.0", ⟨"fooo"⟩)]⟩) ∧
    construct ⟨[]⟩ none none (.content [("10.0.0.0", ⟨"fooo"⟩)]) =
      some (.ok ⟨some "10.0.0.0", some "fooo",
            .content [("10.0.0.0", ⟨"fooo"⟩)]⟩, ⟨0, []⟩) :=
  C1_register_roundtrip "10.0.0.0" ⟨"fooo"⟩ .absent (by decide) ⟨[]⟩

/-- Helper: response lines that are neither a success nor an error of type
101 or 7 are skipped without any effect. -/
theorem regLines_skip (cf : BridgeState → Trace → ConnectResult)
    (pre rest : List RegLine) (st : BridgeState) (tr : Trace)
    (hpre : ∀ l ∈ pre, l = .other ∨ ∃ u, l = .regError u ∧ u ≠ 101 ∧ u ≠ 7) :
    regLines cf (pre ++ rest) st tr = regLines cf rest st tr := by
  induction pre with
  | nil => rfl
  | cons l pre2 ih =>
    rcases hpre l (by simp) with h | ⟨u, h, h101, h7⟩
    · subst h
      simp only [List.cons_append, regLines]
      exact ih (fun x hx => hpre x (by simp [hx]))
    · subst h
      simp only [List.cons_append, regLines, if_neg h101, if_neg h7]
      exact ih (fun x hx => hpre x (by simp [hx]))

/-- C2: a registration response carrying an error entry, preceded only by
lines that are neither a success nor a 101/7 error, makes register_app
raise PhueRegistrationException for error type 101 and PhueException for
error type 7, and in both cases the credential-file writes are exactly
those already in the trace — no write occurs. -/
theorem C2_register_error (cf : BridgeState → Trace → ConnectResult)
    (env : Env) (st : BridgeState) (tr : Trace)
    (pre post : List RegLine) (t : Int)
    (hresp : env.regResponse = pre ++ .regError t :: post)
    (hpre : ∀ l ∈ pre, l = .other ∨ ∃ u, l = .regError u ∧ u ≠ 101 ∧ u ≠ 7) :
    (t = 101 → register_app cf env st tr =
      some (.error (.registrationExc 101),
        ⟨tr.regRequests + 1, tr.fileWrites⟩)) ∧
    (t = 7 → register_app cf env st tr =
      some (.error (.genericExc 7),
        ⟨tr.regRequests + 1, tr.fileWrites⟩)) := by
  constructor <;> intro ht <;> subst ht <;>
    rw [register_app, hresp, regLines_skip cf pre _ _ _ hpre] <;>
    simp [regLines]

/-- C2 witness: the theorem applied to a response whose error entry of type
101 follows an unrelated line and an error of another type. -/
theorem C2_register_error_witness :
    register_app (fun _ _ => none) ⟨[.other, .regError 3, .regError 101]⟩
      ⟨some "10.0.0.0", none, .absent⟩ ⟨0, []⟩ =
      some (.error (.registrationExc 101), ⟨1, []⟩) :=
  (C2_register_error (fun _ _ => none) ⟨[.other, .regError 3, .regError 101]⟩
      ⟨some "10.0.0.0", none, .absent⟩ ⟨0, []⟩
      [.other, .regError 3] [] 101 rfl (by
        intro l hl
        simp only [List.mem_cons, List.not_mem_nil, or_false] at hl
        rcases hl with h | h
        · exact Or.inl h
        · exact Or.inr ⟨3, h, by decide, by decide⟩)).1 rfl

/-- Helper: after a registration write, the re-entered connect always
resolves from the single-record file without any further effect. -/
theorem connectFuel_written (fuel : Nat) (env : Env) (s : SuccessEntry)
    (st : BridgeState) (tr : Trace)
    (hfile : st.file = .content [(ipToKey st.ip, s)]) :
    ∃ st2, connectFuel (fuel + 1) env st tr = some (.ok st2, tr) := by
  rcases hip : st.ip with _ | a <;> rcases husr : st.username with _ | u <;>
    rw [hip] at hfile
  · refine ⟨{ st with ip := some "null", username := some s.username }, ?_⟩
    simp [connectFuel, hip, husr, hfile, tryLoad, cfgLookup, ipToKey]
  · refine ⟨{ st with ip := some "null", username := some u }, ?_⟩
    simp [connectFuel, hip, husr, hfile, tryLoad, cfgLookup, ipToKey]
  · refine ⟨{ st with ip := some a, username := some s.username }, ?_⟩
    simp [connectFuel, hip, husr, hfile, tryLoad_some_none, cfgLookup_single,
      ipToKey]
  · refine ⟨st, ?_⟩
    simp [connectFuel, hip, husr]

/-- Helper: the response loop never issues another registration request:
whatever the response lines are, the request count is unchanged by the
loop, because the connect re-entered after a write resolves from the
written file. -/
theorem regLines_no_register (fuel : Nat) (env : Env) :
    ∀ (lines : List RegLine) (st : BridgeState) (tr : Trace),
    ∃ r tr2, regLines (connectFuel (fuel + 1) env) lines st tr =
      some (r, tr2) ∧ tr2.regRequests = tr.regRequests := by
  intro lines
  induction lines with
  | nil => intro st tr; exact ⟨.ok st, tr, rfl, rfl⟩
  | cons l rest ih =>
    intro st tr
    rcases l with s | t | _
    · obtain ⟨st2, hst2⟩ := connectFuel_written fuel env s
        { st with file := .content [(ipToKey st.ip, s)] }
        { tr with fileWrites := tr.fileWrites ++ [(ipToKey st.ip, s)] } rfl
      obtain ⟨r, tr2, hrec, hcount⟩ := ih st2
        { tr with fileWrites := tr.fileWrites ++ [(ipToKey st.ip, s)] }
      refine ⟨r, tr2, ?_, hcount⟩
      simp only [regLines, hst2, hrec]
    · by_cases h101 : t = 101
      · subst h101
        exact ⟨.error (.registrationExc 101), tr, by simp [regLines], rfl⟩
      · by_cases h7 : t = 7
        · subst h7
          exact ⟨.error (.genericExc 7), tr, by simp [regLines, h101], rfl⟩
        · obtain ⟨r, tr2, hrec, hcount⟩ := ih st tr
          exact ⟨r, tr2, by simp [regLines, h101, h7, hrec], hcount⟩
    · obtain ⟨r, tr2, hrec, hcount⟩ := ih st tr
      exact ⟨r, tr2, by simp [regLines, hrec], hcount⟩

/-- Helper: on any of the three file-level load failures, construction
reduces to one registration request followed by the response loop. -/
theorem construct_loaderr (env : Env) (ip? usr? : Option String)
    (f : FileState) (hf : fileLoadErr f)
    (hnb : (ip?.isSome && usr?.isSome) = false) :
    construct env ip? usr? f =
      regLines (connectFuel 2 env) env.regResponse ⟨ip?, usr?, f⟩
        ⟨1, []⟩ := by
  rcases hf with h | h | h <;> subst h <;>
    simp [construct, connectFuel, register_app, hnb]

/-- Helper: every construction issues at most one registration request and
always terminates with a result. -/
theorem construct_reg_bound (env : Env) (ip? usr? : Option String)
    (f : FileState) :
    ∃ r tr, construct env ip? usr? f = some (r, tr) ∧ tr.regRequests ≤ 1 := by
  by_cases hfast : (ip?.isSome && usr?.isSome) = true
  · exact ⟨.ok ⟨ip?, usr?, f⟩, ⟨0, []⟩, by simp [construct, connectFuel, hfast],
      by simp⟩
  · have hnb : (ip?.isSome && usr?.isSome) = false := by
      revert hfast; cases ip?.isSome && usr?.isSome <;> simp
    rcases hf : f with _ | _ | _ | cfg
    · obtain ⟨r, tr2, hreg, hcount⟩ := regLines_no_register 1 env
        env.regResponse ⟨ip?, usr?, .absent⟩ ⟨1, []⟩
      refine ⟨r, tr2, ?_, by simp [hcount]⟩
      rw [construct_loaderr env ip? usr? .absent (Or.inl rfl) hnb]
      exact hreg
    · obtain ⟨r, tr2, hreg, hcount⟩ := regLines_no_register 1 env
        env.regResponse ⟨ip?, usr?, .unreadable⟩ ⟨1, []⟩
      refine ⟨r, tr2, ?_, by simp [hcount]⟩
      rw [construct_loaderr env ip? usr? .unreadable (Or.inr (Or.inl rfl)) hnb]
      exact hreg
    · obtain ⟨r, tr2, hreg, hcount⟩ := regLines_no_register 1 env
        env.regResponse ⟨ip?, usr?, .malformed⟩ ⟨1, []⟩
      refine ⟨r, tr2, ?_, by simp [hcount]⟩
      rw [construct_loaderr env ip? usr? .malformed
        (Or.inr (Or.inr rfl)) hnb]
      exact hreg
    · rcases hload : tryLoad ip? usr? cfg with _ | p
      · obtain ⟨r, tr2, hreg, hcount⟩ := regLines_no_register 1 env
          env.regResponse ⟨ip?, usr?, .content cfg⟩ ⟨1, []⟩
        refine ⟨r, tr2, ?_, by simp [hcount]⟩
        have : construct env ip? usr? (.content cfg) =
            regLines (connectFuel 2 env) env.regResponse
              ⟨ip?, usr?, .content cfg⟩ ⟨1, []⟩ := by
          simp [construct, connectFuel, register_app, hnb, hload]
        rw [this]
        exact hreg
      · exact ⟨.ok ⟨some p.1, some p.2, .content cfg⟩, ⟨0, []⟩,
          by simp [construct, connectFuel, hnb, hload], by simp⟩

/-- Helper: the response loop never distinguishes the pre-existing file
state: two starting states equal up to the file component produce the same
observable outcome. -/
theorem regLines_obs (cf : BridgeState → Trace → ConnectResult)
    (lines : List RegLine) :
    ∀ (st1 st2 : BridgeState) (tr : Trace), st1.ip = st2.ip →
    st1.username = st2.username →
    observe (regLines cf lines st1 tr) =
      observe (regLines cf lines st2 tr) := by
  induction lines with
  | nil =>
    intro st1 st2 tr hip husr
    simp [regLines, observe, hip, husr]
  | cons l rest ih =>
    intro st1 st2 tr hip husr
    rcases l with s | t | _
    · have heq : ({ st1 with file := .content [(ipToKey st1.ip, s)] } :
          BridgeState) =
          { st2 with file := .content [(ipToKey st2.ip, s)] } := by
        cases st1; cases st2
        simp only at hip husr
        simp [hip, husr]
      have e1 : regLines cf (RegLine.success s :: rest) st1 tr =
          regLines cf (RegLine.success s :: rest) st2 tr := by
        simp only [regLines]
        rw [heq, hip]
      rw [e1]
    · by_cases h101 : t = 101
      · subst h101; simp [regLines]
      · by_cases h7 : t = 7
        · subst h7; simp [regLines, h101]
        · simp only [regLines, if_neg h101, if_neg h7]
          exact ih st1 st2 tr hip husr
    · simp only [regLines]
      exact ih st1 st2 tr hip husr

/-- C3: with address or credential missing, the three credential-file load
failures — missing file, unreadable file, malformed JSON — are treated
identically: the caller-observable outcome of construction is the same for
any two of them, and each triggers the registration fallback, issuing
exactly one registration request; moreover every construction, whatever
its file state, issues at most one registration request — registration is
never retried or polled internally. -/
theorem C3_load_failure_fallback (ip? usr? : Option String) (env : Env)
    (f1 f2 f3 : FileState) (h1 : fileLoadErr f1) (h2 : fileLoadErr f2)
    (hnb : ¬(ip?.isSome = true ∧ usr?.isSome = true)) :
    observe (construct env ip? usr? f1) =
      observe (construct env ip? usr? f2) ∧
    (∃ r tr, construct env ip? usr? f1 = some (r, tr) ∧
      tr.regRequests = 1) ∧
    (∃ r tr, construct env ip? usr? f3 = some (r, tr) ∧
      tr.regRequests ≤ 1) := by
  have hnbb : (ip?.isSome && usr?.isSome) = false := by
    rcases hi : ip?.isSome <;> rcases hu : usr?.isSome <;> simp_all
  refine ⟨?_, ?_, construct_reg_bound env ip? usr? f3⟩
  · rw [construct_loaderr env ip? usr? f1 h1 hnbb,
      construct_loaderr env ip? usr? f2 h2 hnbb]
    exact regLines_obs _ env.regResponse ⟨ip?, usr?, f1⟩ ⟨ip?, usr?, f2⟩
      ⟨1, []⟩ rfl rfl
  · obtain ⟨r, tr2, hreg, hcount⟩ := regLines_no_register 1 env
      env.regResponse ⟨ip?, usr?, f1⟩ ⟨1, []⟩
    refine ⟨r, tr2, ?_, by simp [hcount]⟩
    rw [construct_loaderr env ip? usr? f1 h1 hnbb]
    exact hreg

/-- C3 witness: the theorem applied to a missing and a malformed file with
only the address supplied, against a success response. -/
theorem C3_load_failure_fallback_witness :
    observe (construct ⟨[.success ⟨"fooo"⟩]⟩ (some "10.0.0.0") none .absent) =
      observe (construct ⟨[.success ⟨"fooo"⟩]⟩ (some "10.0.0.0") none
        .malformed) ∧
    (∃ r tr, construct ⟨[.success ⟨"fooo"⟩]⟩ (some "10.0.0.0") none .absent =
      some (r, tr) ∧ tr.regRequests = 1) ∧
    (∃ r tr, construct ⟨[.success ⟨"fooo"⟩]⟩ (some "10.0.0.0") none
      (.content [("10.0.0.0", ⟨"fooo"⟩)]) = some (r, tr) ∧
      tr.regRequests ≤ 1) :=
  C3_load_failure_fallback (some "10.0.0.0") none ⟨[.success ⟨"fooo"⟩]⟩
    .absent .malformed (.content [("10.0.0.0", ⟨"fooo"⟩)])
    (by decide) (by decide) (by decide)
